import Mathlib

/-!
Shallow embedding of the mask-authoring core of the APIHosted-AIImageEditor
front-end (src/frontend/src/app/page.tsx, src/frontend/src/app/erase/page.tsx,
src/frontend/src/app/generate/page.tsx).

Pixels are RGBA quadruples of naturals (8-bit channels, 0..255).  A canvas
backing store (HTMLCanvasElement) and a decoded image (HTMLImageElement) are
grids of pixels given by total functions from coordinates, together with
their dimensions.  The fractional arithmetic of the 2d canvas API (the 0.7
paint alpha, the brushSize / 2 arc radius, source-over compositing) is
modelled exactly over naturals: the alpha 0.7 as the rational 7/10 with
rounding to nearest, and membership in a disc of radius bs/2 by the
denominator-cleared inequality 4*(dx*dx + dy*dy) <= bs*bs.
-/

/-- One RGBA pixel as stored in ImageData: four 8-bit channels. -/
@[ext]
structure Pixel where
  r : Nat
  g : Nat
  b : Nat
  a : Nat
deriving DecidableEq

/-- Opaque white (255,255,255,255), written for marked mask pixels. -/
def whitePixel : Pixel := ⟨255, 255, 255, 255⟩

/-- Opaque black (0,0,0,255), the mask background. -/
def blackPixel : Pixel := ⟨0, 0, 0, 255⟩

/-- The red-dominance test of canvasToMask (page.tsx line 188, erase/page.tsx
line 178): `const isRed = r > 150 && r > g * 2 && r > b * 2`. -/
def isRed (r g b : Nat) : Bool :=
  decide (150 < r) && decide (g * 2 < r) && decide (b * 2 < r)

/-- Combined per-pixel effect of the two passes of canvasToMask: the first
pass writes (0,0,0,255) at every pixel, the second overwrites with
(255,255,255,255) exactly where isRed holds. -/
def maskPixel (p : Pixel) : Pixel :=
  if isRed p.r p.g p.b then whitePixel else blackPixel

/-- A canvas backing store: fixed dimensions plus the pixel grid. -/
@[ext]
structure Canvas where
  width : Nat
  height : Nat
  px : Nat → Nat → Pixel

/-- canvasToMask (page.tsx lines 150-208), grid view: the mask canvas is
created with the same width/height as the input canvas, and each output
pixel is black or white according to isRed on the corresponding input
pixel.  The source's stride-4 loop over the flat ImageData array is given
separately as canvasToMaskBytes below. -/
def canvasToMask (c : Canvas) : Canvas :=
  { width := c.width, height := c.height, px := fun i j => maskPixel (c.px i j) }

/-- The four bytes of one pixel in ImageData order R,G,B,A. -/
def pixelBytes (p : Pixel) : List Nat := [p.r, p.g, p.b, p.a]

/-- A pixel list flattened to the ImageData byte layout. -/
def imageBytes : List Pixel → List Nat
  | [] => []
  | p :: ps => pixelBytes p ++ imageBytes ps

/-- First pass of canvasToMask (page.tsx lines 174-179): every group of four
bytes is set to 0,0,0,255. -/
def fillBlack : List Nat → List Nat
  | _r :: _g :: _b :: _a :: rest => 0 :: 0 :: 0 :: 255 :: fillBlack rest
  | other => other

/-- Second pass of canvasToMask (page.tsx lines 182-197): walk the source
bytes and the mask bytes in step; where isRed holds on the source pixel the
mask group becomes 255,255,255,255, elsewhere it is left as written by the
first pass. -/
def detectRed : List Nat → List Nat → List Nat
  | r :: g :: b :: _a :: rest, m0 :: m1 :: m2 :: m3 :: mrest =>
      if isRed r g b then 255 :: 255 :: 255 :: 255 :: detectRed rest mrest
      else m0 :: m1 :: m2 :: m3 :: detectRed rest mrest
  | _, m => m

/-- canvasToMask on the flat ImageData byte array: black fill pass, then red
detection pass. -/
def canvasToMaskBytes (d : List Nat) : List Nat := detectRed d (fillBlack d)

/-- A decoded source image (the Image element the object URL resolves to). -/
@[ext]
structure Image where
  width : Nat
  height : Nat
  px : Nat → Nat → Pixel

/-- drawImage(img, 0, 0, t, t): the source image is stretched to exactly
fill the t-by-t canvas, aspect ratio not preserved.  Browser resampling is
modelled as nearest sampling; the claims depend only on the scaling being a
deterministic function of the source that draws pixels of the source. -/
def scaleTo (t : Nat) (img : Image) : Canvas :=
  { width := t, height := t
    px := fun i j => img.px (i * img.width / t) (j * img.height / t) }

/-- Membership of pixel (i,j) in the filled disc painted by
ctx.arc(cx, cy, bs / 2, 0, 2*PI); ctx.fill(): the radius is half the brush
size, so (i-cx)^2 + (j-cy)^2 <= (bs/2)^2, written 4*d2 <= bs*bs to keep the
JS fractional radius exact over the integers. -/
def inDisc (cx cy bs i j : Nat) : Bool :=
  decide (4 * (((i : Int) - (cx : Int)) * ((i : Int) - (cx : Int))
      + ((j : Int) - (cy : Int)) * ((j : Int) - (cy : Int)))
    ≤ (bs : Int) * (bs : Int))

/-- Source-over compositing of fillStyle rgba(255, 0, 0, 0.7) onto an opaque
destination pixel (page.tsx line 117): out = 0.7*src + 0.3*dst per channel,
rounded to nearest; the destination stays opaque. -/
def compositeRed (p : Pixel) : Pixel :=
  { r := (7 * 255 + 3 * p.r + 5) / 10
    g := (3 * p.g + 5) / 10
    b := (3 * p.b + 5) / 10
    a := 255 }

/-- Standard source-over compositing of source pixel s onto an opaque
destination pixel d: out = (s.a*s + (255-s.a)*d)/255 per channel, rounded to
nearest; the destination stays opaque. -/
def compositeOver (s d : Pixel) : Pixel :=
  { r := (s.a * s.r + (255 - s.a) * d.r + 127) / 255
    g := (s.a * s.g + (255 - s.a) * d.g + 127) / 255
    b := (s.a * s.b + (255 - s.a) * d.b + 127) / 255
    a := 255 }

/-- Brush branch of draw (page.tsx lines 112-119): one filled disc of radius
brushSize / 2 centered at (cx,cy), filled with rgba(255,0,0,0.7) under
source-over; pixels outside the disc are untouched. -/
def stampMark (bs cx cy : Nat) (c : Canvas) : Canvas :=
  { c with px := fun i j =>
      if inDisc cx cy bs i j then compositeRed (c.px i j) else c.px i j }

/-- Eraser branch of draw (page.tsx lines 99-111): the scaled source image
src is drawn source-over, clipped to the same disc of radius brushSize / 2;
pixels outside the disc are untouched. -/
def stampErase (bs cx cy : Nat) (src c : Canvas) : Canvas :=
  { c with px := fun i j =>
      if inDisc cx cy bs i j then compositeOver (src.px i j) (c.px i j)
      else c.px i j }

/-- The component state the painting handlers read and write: the selected
image (originalImageUrl resolved to its decoded bitmap), the canvas element
currently mounted (canvasRef.current), and the flags and brush settings. -/
structure PaintState where
  originalImageUrl : Option Image
  canvas : Option Canvas
  canvasInitialized : Bool
  isDrawing : Bool
  isEraser : Bool
  brushSize : Nat

namespace Inpaint

/-- draw (page.tsx lines 88-120).  Guard: `if (!isDrawing ||
!canvasRef.current) return` - note there is no canvasInitialized guard.
In eraser mode the original image is redrawn scaled to 1024x1024 clipped to
the brush disc (the img.onload callback is modelled as running
synchronously); with no image URL the Image never loads and nothing is
drawn.  In brush mode a translucent red disc is stamped. -/
def draw (st : PaintState) (x y : Nat) : PaintState :=
  if !st.isDrawing then st
  else
    match st.canvas with
    | none => st
    | some c =>
        if st.isEraser then
          match st.originalImageUrl with
          | none => st
          | some img =>
              { st with
                canvas := some (stampErase st.brushSize x y (scaleTo 1024 img) c) }
        else
          { st with canvas := some (stampMark st.brushSize x y c) }

/-- startDrawing (page.tsx lines 79-82): setIsDrawing(true) then draw(e). -/
def startDrawing (st : PaintState) (x y : Nat) : PaintState :=
  draw { st with isDrawing := true } x y

/-- stopDrawing (page.tsx lines 84-86). -/
def stopDrawing (st : PaintState) : PaintState :=
  { st with isDrawing := false }

/-- img.onload of the initialization useEffect (page.tsx lines 64-72):
canvas.width = 1024; canvas.height = 1024 (which resets the backing store);
drawImage(img, 0, 0, 1024, 1024); setCanvasInitialized(true). -/
def initCanvasEffect (st : PaintState) (img : Image) : PaintState :=
  { st with canvas := some (scaleTo 1024 img), canvasInitialized := true }

end Inpaint

namespace Erase

/-- img.onload of the initialization useEffect (erase/page.tsx lines 66-71):
canvas.width = 512; canvas.height = 512; drawImage(img, 0, 0, 512, 512);
setCanvasInitialized(true). -/
def initCanvasEffect (st : PaintState) (img : Image) : PaintState :=
  { st with canvas := some (scaleTo 512 img), canvasInitialized := true }

end Erase

/-- JS String.prototype.trim: strip whitespace from both ends.  (Written
over the character list so that it evaluates by kernel reduction; Lean's
own String.trim is semantically the same but does not evaluate by kernel
reduction.) -/
def jsTrim (s : String) : String :=
  ⟨((s.data.dropWhile Char.isWhitespace).reverse.dropWhile Char.isWhitespace).reverse⟩

/-- A settled fetch response with the JSON body fields the pages read.
FormData assembly and the transport itself are abstracted: the handlers
below take the settled response of their single fetch call as an argument,
and count network calls in the state. -/
structure HttpResponse where
  ok : Bool
  status : Nat
  detail : Option String
  success : Bool
  resultImage : String
deriving DecidableEq

/-- State read and written by handleSubmit on the inpaint page. -/
structure InpaintState where
  originalImage : Option Image
  prompt : String
  negativePrompt : String
  canvasInitialized : Bool
  loading : Bool
  error : Option String
  result : Option HttpResponse
  networkCalls : Nat

namespace Inpaint

/-- handleSubmit (page.tsx lines 210-255).  Validation: missing image or
blank prompt sets a missing-input error and returns before any network
call; uninitialized canvas likewise.  Otherwise: setLoading(true),
setError(null), one fetch; on !response.ok the thrown and caught message is
the generic template string, the detail body is never read; on ok the
result is stored; finally setLoading(false). -/
def handleSubmit (st : InpaintState) (resp : HttpResponse) : InpaintState :=
  if st.originalImage.isNone || jsTrim st.prompt == "" then
    { st with error := some ("Please provide an original image and prompt") }
  else if !st.canvasInitialized then
    { st with error := some ("Please wait for the image to load") }
  else
    let st1 :=
      { st with
        loading := true
        error := none
        networkCalls := st.networkCalls + 1 }
    let st2 :=
      if !resp.ok then
        { st1 with error := some ("HTTP error! status: " ++ toString resp.status) }
      else
        { st1 with result := some resp }
    { st2 with loading := false }

end Inpaint

/-- State read and written by handleSubmit on the erase page. -/
structure EraseState where
  originalImage : Option Image
  backgroundPrompt : String
  negativePrompt : String
  canvasInitialized : Bool
  loading : Bool
  error : Option String
  result : Option HttpResponse
  networkCalls : Nat

namespace Erase

/-- handleSubmit (erase/page.tsx lines 199-243).  Validation checks only
that an image is present - backgroundPrompt is sent as-is and may be empty.
The error path mirrors the inpaint page: the generic template string, the
detail body is never read. -/
def handleSubmit (st : EraseState) (resp : HttpResponse) : EraseState :=
  if st.originalImage.isNone then
    { st with error := some ("Please provide an image") }
  else if !st.canvasInitialized then
    { st with error := some ("Please wait for the image to load") }
  else
    let st1 :=
      { st with
        loading := true
        error := none
        networkCalls := st.networkCalls + 1 }
    let st2 :=
      if !resp.ok then
        { st1 with error := some ("HTTP error! status: " ++ toString resp.status) }
      else
        { st1 with result := some resp }
    { st2 with loading := false }

end Erase

/-- JS `errorData.detail || fallback`: a missing or empty detail string is
falsy and falls back. -/
def jsOrElse (s : Option String) (fb : String) : String :=
  match s with
  | some d => if d == "" then fb else d
  | none => fb

/-- State read and written by handleGenerate on the generate page. -/
structure GenState where
  prompt : String
  negativePrompt : String
  isGenerating : Bool
  generatedImage : Option String
  result : Option HttpResponse
  error : Option String
  networkCalls : Nat

namespace Generate

/-- handleGenerate (generate/page.tsx lines 54-97).  Blank prompt sets an
error before any network call.  Otherwise one fetch; on !response.ok the
response body is parsed and `errorData.detail || 'Generation failed'` is
surfaced; on ok with success the image is stored, without success the
generic failure is surfaced; finally setIsGenerating(false). -/
def handleGenerate (st : GenState) (resp : HttpResponse) : GenState :=
  if jsTrim st.prompt == "" then
    { st with error := some ("Please enter a prompt") }
  else
    let st1 :=
      { st with
        isGenerating := true
        error := none
        generatedImage := none
        result := none
        networkCalls := st.networkCalls + 1 }
    let st2 :=
      if !resp.ok then
        { st1 with error := some (jsOrElse resp.detail ("Generation failed")) }
      else if resp.success then
        { st1 with
          generatedImage := some ("data:image/png;base64," ++ resp.resultImage)
          result := some resp }
      else
        { st1 with error := some ("Generation failed") }
    { st2 with isGenerating := false }

end Generate

/-- The 300x400 all-black source image of the spec's happy-path scenario. -/
def img0 : Image := { width := 300, height := 400, px := fun _ _ => blackPixel }

/-- A 1024x1024 opaque black canvas (the initialized surface for img0). -/
def blackCanvas : Canvas := { width := 1024, height := 1024, px := fun _ _ => blackPixel }

/-- HTTP 500 with body detail "CUDA out of memory". -/
def resp500 : HttpResponse :=
  { ok := false, status := 500, detail := some ("CUDA out of memory"),
    success := false, resultImage := "" }

/-- A successful response. -/
def respOk : HttpResponse :=
  { ok := true, status := 200, detail := none, success := true, resultImage := "" }

/-- Inpaint page state with an image loaded, a prompt, canvas initialized. -/
def stReady : InpaintState :=
  { originalImage := some img0, prompt := "black sunglasses", negativePrompt := "",
    canvasInitialized := true, loading := false, error := none, result := none,
    networkCalls := 0 }

/-- Inpaint page state with no image loaded. -/
def stNoImage : InpaintState :=
  { originalImage := none, prompt := "black sunglasses", negativePrompt := "",
    canvasInitialized := true, loading := false, error := none, result := none,
    networkCalls := 0 }

/-- Erase page state with an image, empty background prompt, initialized. -/
def stEraseReady : EraseState :=
  { originalImage := some img0, backgroundPrompt := "", negativePrompt := "",
    canvasInitialized := true, loading := false, error := none, result := none,
    networkCalls := 0 }

/-- Generate page state with a non-empty prompt. -/
def stGen : GenState :=
  { prompt := "castle", negativePrompt := "", isGenerating := false,
    generatedImage := none, result := none, error := none, networkCalls := 0 }

/-- Paint state in the re-selection window: a new image was chosen
(onOriginalDrop set canvasInitialized to false) while the mounted canvas
still holds the previous initialized, opaque content; no stroke active yet. -/
def stPaintPending : PaintState :=
  { originalImageUrl := some img0, canvas := some blackCanvas,
    canvasInitialized := false, isDrawing := false, isEraser := false,
    brushSize := 20 }

/-- Paint state before any image has been selected: the canvas element is
not mounted, so canvasRef.current is null. -/
def stNoCanvas : PaintState :=
  { originalImageUrl := none, canvas := none, canvasInitialized := false,
    isDrawing := true, isEraser := false, brushSize := 20 }

/-- After a red stamp the red channel is at least 179, so the 150 threshold
and double-dominance over the attenuated green and blue always hold on any
8-bit background. -/
theorem isRed_compositeRed (p : Pixel) (hg : p.g ≤ 255) (hb : p.b ≤ 255) :
    isRed (compositeRed p).r (compositeRed p).g (compositeRed p).b = true := by
  simp only [isRed, compositeRed, Bool.and_eq_true, decide_eq_true_eq]
  omega

/-- Source-over with a fully opaque source replaces the destination. -/
theorem compositeOver_opaque (s d : Pixel) (ha : s.a = 255) :
    compositeOver s d = s := by
  ext <;> simp only [compositeOver, ha] <;> omega

/-- One step of the fused mask loops on the byte array. -/
theorem canvasToMaskBytes_cons (p : Pixel) (ps : List Pixel) :
    canvasToMaskBytes (imageBytes (p :: ps))
      = pixelBytes (maskPixel p) ++ canvasToMaskBytes (imageBytes ps) := by
  obtain ⟨r, g, b, a⟩ := p
  show detectRed (r :: g :: b :: a :: imageBytes ps)
      (fillBlack (r :: g :: b :: a :: imageBytes ps)) = _
  rw [fillBlack, detectRed]
  by_cases h : isRed r g b = true
  · simp [maskPixel, h, pixelBytes, whitePixel, canvasToMaskBytes]
  · simp only [Bool.not_eq_true] at h
    simp [maskPixel, h, pixelBytes, blackPixel, canvasToMaskBytes]

/-- C1: For every surface pixel, the Mask Extractor (canvasToMask) writes
the corresponding output pixel as opaque white (255,255,255,255) if and only
if the pixel's channels satisfy r > 150 and r > 2*g and r > 2*b, and as
opaque black (0,0,0,255) otherwise, in an output of the same width and
height as the input; in particular (200,50,50) classifies white,
(200,120,50) classifies black, and (100,10,10) classifies black. -/
theorem C1_mask_classification :
    (∀ ps : List Pixel,
      canvasToMaskBytes (imageBytes ps) = imageBytes (ps.map maskPixel)) ∧
    (∀ c : Canvas,
      (canvasToMask c).width = c.width ∧ (canvasToMask c).height = c.height) ∧
    (∀ (c : Canvas) (i j : Nat),
      (canvasToMask c).px i j =
        if 150 < (c.px i j).r ∧ 2 * (c.px i j).g < (c.px i j).r
            ∧ 2 * (c.px i j).b < (c.px i j).r
        then whitePixel else blackPixel) ∧
    isRed 200 50 50 = true ∧ isRed 200 120 50 = false ∧ isRed 100 10 10 = false := by
  refine ⟨?_, fun c => ⟨rfl, rfl⟩, ?_, rfl, rfl, rfl⟩
  · intro ps
    induction ps with
    | nil => rfl
    | cons p ps ih =>
        rw [canvasToMaskBytes_cons, ih, List.map_cons]
        rfl
  · intro c i j
    have hiff : (isRed (c.px i j).r (c.px i j).g (c.px i j).b = true)
        ↔ (150 < (c.px i j).r ∧ 2 * (c.px i j).g < (c.px i j).r
            ∧ 2 * (c.px i j).b < (c.px i j).r) := by
      simp only [isRed, Bool.and_eq_true, decide_eq_true_eq]
      omega
    simp only [canvasToMask, maskPixel]
    rw [if_congr hiff rfl rfl]

/-- C2: The Mask Extractor is deterministic and idempotent: two successive
calls on an unchanged surface produce identical masks, and the result is a
function of the surface dimensions and pixel content alone. -/
theorem C2_extract_deterministic (c1 c2 : Canvas) (hw : c1.width = c2.width)
    (hh : c1.height = c2.height) (hpx : ∀ i j, c1.px i j = c2.px i j) :
    canvasToMask c1 = canvasToMask c2 ∧ canvasToMask c1 = canvasToMask c1 := by
  refine ⟨?_, rfl⟩
  have hfun : (fun i j => maskPixel (c1.px i j)) = (fun i j => maskPixel (c2.px i j)) := by
    funext i j
    rw [hpx]
  simp only [canvasToMask, hw, hh, hfun]

/-- Witness for C2 at two structurally distinct canvases with equal
dimensions and pixel content. -/
theorem C2_extract_deterministic_witness :
    canvasToMask blackCanvas
      = canvasToMask { width := 1024, height := 1024, px := fun _ _ => ⟨0, 0, 0, 255⟩ } :=
  (C2_extract_deterministic blackCanvas
    { width := 1024, height := 1024, px := fun _ _ => ⟨0, 0, 0, 255⟩ }
    rfl rfl (fun _ _ => rfl)).1

/-- Counterexample to C3: the code stamps ctx.arc(x, y, brushSize / 2, ...),
a disc of radius half the brush size.  With brush size 20 at (512,512) on
the initialized surface of the all-black 300x400 source, the point
(527,512) lies at distance 15 from the center - inside the radius-20 disc
the claim asserts - yet the extracted mask is black there. -/
theorem C3_brush_radius_counterexample :
    (((527 : Int) - 512) * ((527 : Int) - 512)
        + ((512 : Int) - 512) * ((512 : Int) - 512) ≤ (20 : Int) * 20) ∧
    (canvasToMask (stampMark 20 512 512 (scaleTo 1024 img0))).px 527 512 = blackPixel := by
  exact ⟨by decide, rfl⟩

/-- C3 amended: each paint event in mark mode stamps one filled disc of
radius brushSize / 2 (the brush-size value is the disc diameter) at the
given point; consequently one mark stroke with brush size bs at (cx,cy) on
the initialized surface of a source image with 8-bit channels and no
red-classified pixels, followed by extraction, yields a mask that is white
exactly on the disc of radius bs/2 around (cx,cy) (membership written
4*dist^2 <= bs^2) and black elsewhere, on a 1024x1024 mask. -/
theorem C3_brush_radius_amended (img : Image)
    (hgb : ∀ x y, (img.px x y).g ≤ 255 ∧ (img.px x y).b ≤ 255)
    (hnr : ∀ x y, isRed (img.px x y).r (img.px x y).g (img.px x y).b = false)
    (bs cx cy i j : Nat) :
    ((canvasToMask (stampMark bs cx cy (scaleTo 1024 img))).px i j
        = if inDisc cx cy bs i j then whitePixel else blackPixel) ∧
    (canvasToMask (stampMark bs cx cy (scaleTo 1024 img))).width = 1024 ∧
    (canvasToMask (stampMark bs cx cy (scaleTo 1024 img))).height = 1024 := by
  refine ⟨?_, rfl, rfl⟩
  by_cases h : inDisc cx cy bs i j
  · have hred := isRed_compositeRed
      (img.px (i * img.width / 1024) (j * img.height / 1024))
      (hgb _ _).1 (hgb _ _).2
    simp [canvasToMask, maskPixel, stampMark, scaleTo, h, hred]
  · simp only [Bool.not_eq_true] at h
    simp [canvasToMask, maskPixel, stampMark, scaleTo, h, hnr]

/-- Witness for the amended C3: on the all-black 300x400 source with brush
size 20 at (512,512), the mask is white at the center (512,512) and, per the
counterexample, black at distance 15. -/
theorem C3_brush_radius_witness :
    (canvasToMask (stampMark 20 512 512 (scaleTo 1024 img0))).px 512 512 = whitePixel := by
  have h := (C3_brush_radius_amended img0
    (fun _ _ => ⟨Nat.zero_le _, Nat.zero_le _⟩) (fun _ _ => rfl)
    20 512 512 512 512).1
  rw [show inDisc 512 512 20 512 512 = true from rfl] at h
  simpa using h

/-- C4: Paint-then-erase is the identity on the painted region: after any
number of mark-mode stamps over a disc and one unmark-mode stamp over the
identical disc, every pixel inside the disc equals the original scaled
source pixel exactly, provided the source image is opaque (the eraser
redraws the original image clipped to the disc under source-over). -/
theorem C4_paint_erase_roundtrip (img : Image)
    (ha : ∀ x y, (img.px x y).a = 255) (bs cx cy n i j : Nat)
    (hin : inDisc cx cy bs i j = true) :
    (stampErase bs cx cy (scaleTo 1024 img)
        (Nat.iterate (stampMark bs cx cy) n (scaleTo 1024 img))).px i j
      = (scaleTo 1024 img).px i j := by
  simp only [stampErase, hin, if_true]
  exact compositeOver_opaque _ _ (ha _ _)

/-- Witness for C4: the all-black opaque source, two mark stamps then one
erase stamp with brush size 20 at (512,512), checked at the center pixel. -/
theorem C4_paint_erase_roundtrip_witness :
    inDisc 512 512 20 512 512 = true ∧
    (stampErase 20 512 512 (scaleTo 1024 img0)
        (Nat.iterate (stampMark 20 512 512) 2 (scaleTo 1024 img0))).px 512 512
      = (scaleTo 1024 img0).px 512 512 :=
  ⟨rfl, C4_paint_erase_roundtrip img0 (fun _ _ => rfl) 20 512 512 2 512 512 rfl⟩

/-- C5: A mark-mode stamp modifies only pixels inside its disc: every pixel
outside the disc keeps exactly its RGBA value, and inside the disc the stamp
is source-over compositing of rgba(255,0,0,0.7), under which the red channel
never decreases (so repeated overlapping stamps monotonically accumulate
red) and always ends above the 150 detection threshold. -/
theorem C5_stamp_frame (c : Canvas) (bs cx cy i j : Nat) :
    (inDisc cx cy bs i j = false → (stampMark bs cx cy c).px i j = c.px i j) ∧
    (inDisc cx cy bs i j = true →
      (stampMark bs cx cy c).px i j = compositeRed (c.px i j) ∧
      ((c.px i j).r ≤ 255 → (c.px i j).r ≤ ((stampMark bs cx cy c).px i j).r) ∧
      150 < ((stampMark bs cx cy c).px i j).r) := by
  constructor
  · intro h
    simp [stampMark, h]
  · intro h
    refine ⟨by simp [stampMark, h], ?_, ?_⟩
    · intro hr
      simp only [stampMark, h, if_true, compositeRed]
      omega
    · simp only [stampMark, h, if_true, compositeRed]
      omega

/-- Witness for C5: brush size 20 at (512,512) on the black canvas, frame
checked at the outside point (527,512) and accumulation at the center. -/
theorem C5_stamp_frame_witness :
    (stampMark 20 512 512 blackCanvas).px 527 512 = blackCanvas.px 527 512 ∧
    150 < ((stampMark 20 512 512 blackCanvas).px 512 512).r :=
  ⟨(C5_stamp_frame blackCanvas 20 512 512 527 512).1 rfl,
   ((C5_stamp_frame blackCanvas 20 512 512 512 512).2 rfl).2.2⟩

/-- C6: For every source image of arbitrary width and height, after the
initialization effect completes the surface dimensions equal the tool's
fixed square target - exactly 1024x1024 for the inpaint tool and exactly
512x512 for the erase tool - regardless of the source's aspect ratio. -/
theorem C6_fixed_resolution : ∀ (st : PaintState) (img : Image),
    Option.map Canvas.width (Inpaint.initCanvasEffect st img).canvas = some 1024 ∧
    Option.map Canvas.height (Inpaint.initCanvasEffect st img).canvas = some 1024 ∧
    Option.map Canvas.width (Erase.initCanvasEffect st img).canvas = some 512 ∧
    Option.map Canvas.height (Erase.initCanvasEffect st img).canvas = some 512 :=
  fun _ _ => ⟨rfl, rfl, rfl, rfl⟩

/-- Counterexample to C7: the inpaint page's handleSubmit throws the generic
template string on any non-ok response and never reads the body, so an HTTP
500 with body detail "CUDA out of memory" surfaces "HTTP error! status: 500",
not the server-provided detail. -/
theorem C7_error_detail_counterexample :
    resp500.ok = false ∧ resp500.detail = some ("CUDA out of memory") ∧
    (Inpaint.handleSubmit stReady resp500).error = some ("HTTP error! status: 500") ∧
    some ("HTTP error! status: 500") ≠ some ("CUDA out of memory") ∧
    (Inpaint.handleSubmit stReady resp500).loading = false := by
  refine ⟨rfl, rfl, rfl, by decide, rfl⟩

/-- C7 amended: on a non-2xx response only the generate tool surfaces the
server-provided detail message when one is present (and "Generation failed"
when absent); the inpaint and erase tools always surface the generic
status-based message "HTTP error! status: N" even when a detail is present;
the loading flag is cleared in every case. -/
theorem C7_error_detail_amended :
    (∀ (st : GenState) (resp : HttpResponse) (d : String),
      (jsTrim st.prompt == "") = false → resp.ok = false →
      resp.detail = some d → (d == "") = false →
      (Generate.handleGenerate st resp).error = some d ∧
      (Generate.handleGenerate st resp).isGenerating = false) ∧
    (∀ (st : GenState) (resp : HttpResponse),
      (jsTrim st.prompt == "") = false → resp.ok = false → resp.detail = none →
      (Generate.handleGenerate st resp).error = some ("Generation failed")) ∧
    (∀ (st : InpaintState) (resp : HttpResponse),
      st.originalImage.isNone = false → (jsTrim st.prompt == "") = false →
      st.canvasInitialized = true → resp.ok = false →
      (Inpaint.handleSubmit st resp).error
          = some ("HTTP error! status: " ++ toString resp.status) ∧
      (Inpaint.handleSubmit st resp).loading = false) ∧
    (∀ (st : EraseState) (resp : HttpResponse),
      st.originalImage.isNone = false → st.canvasInitialized = true →
      resp.ok = false →
      (Erase.handleSubmit st resp).error
          = some ("HTTP error! status: " ++ toString resp.status) ∧
      (Erase.handleSubmit st resp).loading = false) := by
  refine ⟨?_, ?_, ?_, ?_⟩
  · intro st resp d h1 h2 h3 h4
    simp [Generate.handleGenerate, jsOrElse, h1, h2, h3, h4]
  · intro st resp h1 h2 h3
    simp [Generate.handleGenerate, jsOrElse, h1, h2, h3]
  · intro st resp h1 h2 h3 h4
    simp [Inpaint.handleSubmit, h1, h2, h3, h4]
  · intro st resp h1 h2 h3
    simp [Erase.handleSubmit, h1, h2, h3]

/-- Witness for the amended C7: the generate tool at a non-empty prompt and
the mocked HTTP 500 with detail "CUDA out of memory" surfaces exactly that
message and clears the in-flight flag. -/
theorem C7_error_detail_witness :
    (Generate.handleGenerate stGen resp500).error = some ("CUDA out of memory") ∧
    (Generate.handleGenerate stGen resp500).isGenerating = false :=
  C7_error_detail_amended.1 stGen resp500 ("CUDA out of memory") rfl rfl rfl rfl

/-- C8: A submit attempt with a required input missing fails before any
network call: with no image (or, for the inpaint tool, a blank prompt) the
handler returns the missing-input error with every other state field
unchanged and the network-call count untouched; the erase tool's background
prompt is not required - with an image present and the surface initialized
an empty background prompt still performs the single network call. -/
theorem C8_submit_validation :
    (∀ (st : InpaintState) (resp : HttpResponse), st.originalImage.isNone = true →
      Inpaint.handleSubmit st resp
        = { st with error := some ("Please provide an original image and prompt") }) ∧
    (∀ (st : InpaintState) (resp : HttpResponse), (jsTrim st.prompt == "") = true →
      Inpaint.handleSubmit st resp
        = { st with error := some ("Please provide an original image and prompt") }) ∧
    (∀ (st : EraseState) (resp : HttpResponse), st.originalImage.isNone = true →
      Erase.handleSubmit st resp
        = { st with error := some ("Please provide an image") }) ∧
    (∀ (st : EraseState) (resp : HttpResponse), st.originalImage.isNone = false →
      st.canvasInitialized = true → st.backgroundPrompt = "" →
      (Erase.handleSubmit st resp).networkCalls = st.networkCalls + 1) := by
  refine ⟨?_, ?_, ?_, ?_⟩
  · intro st resp h
    simp [Inpaint.handleSubmit, h]
  · intro st resp h
    simp [Inpaint.handleSubmit, h]
  · intro st resp h
    simp [Erase.handleSubmit, h]
  · intro st resp h1 h2 h3
    simp only [Erase.handleSubmit, h1, h2, Bool.not_true, Bool.false_eq_true, if_false]
    by_cases hok : resp.ok = true <;> simp [hok]

/-- Witness for C8: no image on the inpaint page yields only the error field
set; the erase page with an image and empty background prompt performs its
network call. -/
theorem C8_submit_validation_witness :
    (Inpaint.handleSubmit stNoImage respOk
        = { stNoImage with error := some ("Please provide an original image and prompt") }) ∧
    (Erase.handleSubmit stEraseReady respOk).networkCalls
        = stEraseReady.networkCalls + 1 :=
  ⟨C8_submit_validation.1 stNoImage respOk rfl,
   C8_submit_validation.2.2.2 stEraseReady respOk rfl rfl rfl⟩

/-- Counterexample to C9: draw guards on isDrawing and on the canvas element
being mounted, but not on canvasInitialized.  In the reachable window after
selecting a new image (canvasInitialized reset to false, previous canvas
content still mounted), a pointer-down at (0,0) stamps red: the pixel at
(0,0) changes from opaque black to the composited red, so the surface pixel
content is not left unchanged while the ready flag is false. -/
theorem C9_not_ready_counterexample :
    stPaintPending.canvasInitialized = false ∧
    Option.map (fun c => c.px 0 0) (Inpaint.startDrawing stPaintPending 0 0).canvas
      = some ⟨179, 0, 0, 255⟩ ∧
    Option.map (fun c => c.px 0 0) stPaintPending.canvas = some ⟨0, 0, 0, 255⟩ ∧
    (⟨179, 0, 0, 255⟩ : Pixel) ≠ ⟨0, 0, 0, 255⟩ := by
  refine ⟨rfl, rfl, rfl, by decide⟩

/-- C9 amended: a paint operation is a no-op whenever no stroke is active or
the canvas element is not mounted (canvasRef.current null, the case before
any image is selected); in the window where a canvas is mounted but the
ready flag is false, paint events do mutate the surface, but the
initialization effect then overwrites the entire surface from the source
image, so no pre-initialization paint survives initialization. -/
theorem C9_not_ready_amended :
    (∀ (st : PaintState) (x y : Nat), st.canvas = none → Inpaint.draw st x y = st) ∧
    (∀ (st : PaintState) (x y : Nat), st.isDrawing = false → Inpaint.draw st x y = st) ∧
    (∀ (st : PaintState) (img : Image),
      (Inpaint.initCanvasEffect st img).canvas = some (scaleTo 1024 img) ∧
      (Inpaint.initCanvasEffect st img).canvasInitialized = true) := by
  refine ⟨?_, ?_, fun st img => ⟨rfl, rfl⟩⟩
  · intro st x y h
    simp [Inpaint.draw, h]
  · intro st x y h
    simp [Inpaint.draw, h]

/-- Witness for the amended C9: with no image selected the canvas element is
not mounted and a pointer-move paints nothing. -/
theorem C9_not_ready_witness :
    Inpaint.draw stNoCanvas 5 5 = stNoCanvas :=
  C9_not_ready_amended.1 stNoCanvas 5 5 rfl

/-- C10: The mask classification depends only on a pixel's R, G and B
channels and ignores its alpha: pixels equal on (r,g,b) with different alpha
classify identically, and the fully transparent pure-red pixel
(255,0,0,0) is still classified white. -/
theorem C10_alpha_ignored (p q : Pixel) (hr : p.r = q.r) (hg : p.g = q.g)
    (hb : p.b = q.b) :
    isRed p.r p.g p.b = isRed q.r q.g q.b ∧ maskPixel p = maskPixel q ∧
    maskPixel ⟨255, 0, 0, 0⟩ = whitePixel := by
  refine ⟨by rw [hr, hg, hb], ?_, rfl⟩
  simp [maskPixel, hr, hg, hb]

/-- Witness for C10: the fully transparent and fully opaque pure-red pixels
classify identically (both white). -/
theorem C10_alpha_ignored_witness :
    maskPixel ⟨255, 0, 0, 0⟩ = maskPixel ⟨255, 0, 0, 255⟩ :=
  (C10_alpha_ignored ⟨255, 0, 0, 0⟩ ⟨255, 0, 0, 255⟩ rfl rfl rfl).2.1
